import Mathlib

/-!
Verification of the WebSocket transport bridge core of couchbase-lite-core.

This file gives a shallow embedding of the three source headers
(`RefCounted.hh`, `c4Socket+Internal.hh`, `Base.hh`) and proves or refutes
the specification claims about them.

The reference-counting primitive (`RefCounted`, `retain`, `release`, the
`Retained` smart pointer, and `InstanceCounted`) is fully implemented in
`RefCounted.hh`, so its embedding below is a direct translation of that
source.  The socket-factory registry, address conversions and handle
bindings are only declared in `c4Socket+Internal.hh`; their behaviour is
modelled from the specification text, as marked in the doc comments.
-/

namespace litecore

/-- Object identifiers stand for addresses of heap-allocated `RefCounted`
objects. -/
abbrev ObjId := Nat

/-- State of all `RefCounted` objects.  For each object id we track its
`_refCount` field (an `int32_t`, modelled as `Int`; the counts in every
claim stay far below the overflow bound), whether the object is still
allocated (`alive`, cleared by `delete this`), and how many times it has
been destroyed (`destroys`, to express the "destroyed exactly once"
properties). -/
structure Heap where
  refCount : ObjId → Int
  alive : ObjId → Bool
  destroys : ObjId → Nat

/-- Embedding of `RefCounted::_retain`: `++_refCount`. -/
def _retain (h : Heap) (o : ObjId) : Heap :=
  { h with refCount := fun x => if x = o then h.refCount o + 1 else h.refCount x }

/-- Embedding of `RefCounted::_release`: `if (--_refCount <= 0) delete this;`.
The decremented count is recorded; if it is ≤ 0 the object is deallocated
(`alive` cleared) and its destruction count goes up by one. -/
def _release (h : Heap) (o : ObjId) : Heap :=
  if h.refCount o - 1 ≤ 0 then
    { refCount := fun x => if x = o then h.refCount o - 1 else h.refCount x,
      alive := fun x => if x = o then false else h.alive x,
      destroys := fun x => if x = o then h.destroys x + 1 else h.destroys x }
  else
    { h with refCount := fun x => if x = o then h.refCount o - 1 else h.refCount x }

/-- Embedding of the free function `retain(REFCOUNTED *r)`: if the pointer is
non-null it calls `_retain`; it returns the pointer unchanged.  A pointer is
`Option ObjId`, with `none` for null. -/
def retain (h : Heap) (r : Option ObjId) : Heap × Option ObjId :=
  match r with
  | none => (h, none)
  | some o => (_retain h o, some o)

/-- Embedding of the free function `release(RefCounted *r)`: if the pointer is
non-null it calls `_release`; on null it does nothing. -/
def release (h : Heap) (r : Option ObjId) : Heap :=
  match r with
  | none => h
  | some o => _release h o

/-- Embedding of constructing a fresh `RefCounted` object at id `o`:
`_refCount` is initialized to `{0}`, the object is allocated and has never
been destroyed. -/
def newObj (h : Heap) (o : ObjId) : Heap :=
  { refCount := fun x => if x = o then 0 else h.refCount x,
    alive := fun x => if x = o then true else h.alive x,
    destroys := fun x => if x = o then 0 else h.destroys x }

/-- A freshly constructed, never-retained object: count 0, allocated,
never destroyed. -/
def Heap.fresh (h : Heap) (o : ObjId) : Prop :=
  h.refCount o = 0 ∧ h.alive o = true ∧ h.destroys o = 0

/-- N successive `_retain` calls on object `o`. -/
def retainN (h : Heap) (o : ObjId) : Nat → Heap
  | 0 => h
  | n + 1 => _retain (retainN h o n) o

/-- N successive `_release` calls on object `o`. -/
def releaseN (h : Heap) (o : ObjId) : Nat → Heap
  | 0 => h
  | n + 1 => _release (releaseN h o n) o

/-- A concrete heap in which every object is fresh, for witnesses. -/
def heapW : Heap :=
  { refCount := fun _ => 0, alive := fun _ => true, destroys := fun _ => 0 }

theorem retainN_refCount (h : Heap) (o : ObjId) (n : Nat) :
    (retainN h o n).refCount o = h.refCount o + n := by
  induction n with
  | zero => simp [retainN]
  | succ n ih => simp [retainN, _retain, ih]; ring

theorem retainN_alive (h : Heap) (o : ObjId) (n : Nat) :
    (retainN h o n).alive o = h.alive o := by
  induction n with
  | zero => rfl
  | succ n ih => simpa [retainN, _retain] using ih

theorem retainN_destroys (h : Heap) (o : ObjId) (n : Nat) :
    (retainN h o n).destroys o = h.destroys o := by
  induction n with
  | zero => rfl
  | succ n ih => simpa [retainN, _retain] using ih

theorem _release_refCount (h : Heap) (o : ObjId) :
    (_release h o).refCount o = h.refCount o - 1 := by
  unfold _release; split <;> simp

theorem _release_of_pos (h : Heap) (o : ObjId) (hpos : 1 < h.refCount o) :
    (_release h o).alive o = h.alive o ∧ (_release h o).destroys o = h.destroys o := by
  unfold _release
  rw [if_neg (by omega)]
  exact ⟨rfl, rfl⟩

theorem _release_of_le (h : Heap) (o : ObjId) (hle : h.refCount o - 1 ≤ 0) :
    (_release h o).alive o = false ∧ (_release h o).destroys o = h.destroys o + 1 := by
  unfold _release
  rw [if_pos hle]
  exact ⟨by simp, by simp⟩

/-- After `k` releases of an object whose count is at least `k + 1`, the
count has dropped by `k` and the object is untouched otherwise. -/
theorem releaseN_lt (h : Heap) (o : ObjId) (k : Nat) (hk : (k : Int) < h.refCount o) :
    (releaseN h o k).refCount o = h.refCount o - k ∧
    (releaseN h o k).alive o = h.alive o ∧
    (releaseN h o k).destroys o = h.destroys o := by
  induction k with
  | zero => simp [releaseN]
  | succ k ih =>
    have hk' : (k : Int) < h.refCount o := by push_cast at hk ⊢; omega
    obtain ⟨hc, ha, hd⟩ := ih hk'
    have hpos : 1 < (releaseN h o k).refCount o := by
      rw [hc]; push_cast at hk ⊢; omega
    obtain ⟨ha2, hd2⟩ := _release_of_pos _ o hpos
    refine ⟨?_, ?_, ?_⟩
    · rw [releaseN, _release_refCount, hc]; push_cast; ring
    · rw [releaseN, ha2, ha]
    · rw [releaseN, hd2, hd]

/-- C1.  Starting from a freshly constructed object `O` (count 0), a run of
`N ≥ 1` retains (the implicit retain from construction into an owning handle
counted among them) followed by `N` releases destroys `O` exactly once: no
release among the first `N - 1` destroys it, and the final release brings the
count to `0 ≤ 0` and destroys it. -/
theorem retain_release_balanced (h : Heap) (o : ObjId) (N : Nat)
    (hfresh : h.fresh o) (hN : 1 ≤ N) :
    (∀ k, k < N →
      (releaseN (retainN h o N) o k).destroys o = 0 ∧
      (releaseN (retainN h o N) o k).alive o = true) ∧
    (releaseN (retainN h o N) o N).destroys o = 1 ∧
    (releaseN (retainN h o N) o N).alive o = false ∧
    (releaseN (retainN h o N) o N).refCount o = 0 := by
  obtain ⟨h0, ha, hd⟩ := hfresh
  have hcount : (retainN h o N).refCount o = N := by rw [retainN_refCount, h0]; ring
  have halive : (retainN h o N).alive o = true := by rw [retainN_alive, ha]
  have hdest : (retainN h o N).destroys o = 0 := by rw [retainN_destroys, hd]
  have hstep : ∀ k, k < N →
      (releaseN (retainN h o N) o k).destroys o = 0 ∧
      (releaseN (retainN h o N) o k).alive o = true := by
    intro k hkN
    have hk : (k : Int) < (retainN h o N).refCount o := by
      rw [hcount]; exact_mod_cast hkN
    obtain ⟨_, ha2, hd2⟩ := releaseN_lt _ o k hk
    exact ⟨by rw [hd2, hdest], by rw [ha2, halive]⟩
  refine ⟨hstep, ?_⟩
  obtain ⟨hN1, _, _⟩ := releaseN_lt (retainN h o N) o (N - 1)
    (by rw [hcount]; omega)
  obtain ⟨hdprev, haprev⟩ := hstep (N - 1) (by omega)
  have hcprev : (releaseN (retainN h o N) o (N - 1)).refCount o = 1 := by
    rw [hN1, hcount]; omega
  have hlast : releaseN (retainN h o N) o N
      = _release (releaseN (retainN h o N) o (N - 1)) o := by
    generalize retainN h o N = g
    have hsucc : N = (N - 1) + 1 := by omega
    conv_lhs => rw [hsucc]
    rw [releaseN]
  obtain ⟨haf, hdf⟩ := _release_of_le (releaseN (retainN h o N) o (N - 1)) o
    (by rw [hcprev]; omega)
  refine ⟨?_, ?_, ?_⟩
  · rw [hlast, hdf, hdprev]
  · rw [hlast, haf]
  · rw [hlast, _release_refCount, hcprev]; decide

/-- Witness for C1 at `N = 3` on a concrete fresh heap. -/
theorem retain_release_balanced_witness :
    (heapW.fresh 0 ∧ 1 ≤ 3) ∧
    ((∀ k, k < 3 →
      (releaseN (retainN heapW 0 3) 0 k).destroys 0 = 0 ∧
      (releaseN (retainN heapW 0 3) 0 k).alive 0 = true) ∧
    (releaseN (retainN heapW 0 3) 0 3).destroys 0 = 1 ∧
    (releaseN (retainN heapW 0 3) 0 3).alive 0 = false ∧
    (releaseN (retainN heapW 0 3) 0 3).refCount 0 = 0) :=
  ⟨⟨⟨rfl, rfl, rfl⟩, by omega⟩,
   retain_release_balanced heapW 0 3 ⟨rfl, rfl, rfl⟩ (by omega)⟩

/-- C2.  `retain` returns its argument; on a non-null pointer it increments
the count of that object by exactly one; on null both `retain` and `release` do
nothing (and `retain` returns null); a newly constructed object has
ref-count 0. -/
theorem retain_release_basic (h : Heap) (o : ObjId) :
    (retain h (some o)).2 = some o ∧
    (retain h (some o)).1.refCount o = h.refCount o + 1 ∧
    retain h none = (h, none) ∧
    release h none = h ∧
    (newObj h o).refCount o = 0 := by
  refine ⟨rfl, ?_, rfl, rfl, by simp [newObj]⟩
  simp [retain, _retain]

/-- C10.  Releasing a freshly constructed object that was never retained
decrements the count from 0 to -1, which satisfies the `<= 0` destruction
test, so the single release destroys it immediately; in general a release
destroys the object whenever the decremented count is ≤ 0, not only when it
is exactly 0. -/
theorem release_unretained (h : Heap) (o : ObjId) (hfresh : h.fresh o) :
    (release h (some o)).refCount o = -1 ∧
    (release h (some o)).alive o = false ∧
    (release h (some o)).destroys o = 1 ∧
    (∀ (g : Heap) (p : ObjId), g.refCount p - 1 ≤ 0 →
      (_release g p).alive p = false ∧ (_release g p).destroys p = g.destroys p + 1) := by
  obtain ⟨h0, _, hd⟩ := hfresh
  have hle : h.refCount o - 1 ≤ 0 := by rw [h0]; omega
  obtain ⟨ha2, hd2⟩ := _release_of_le h o hle
  refine ⟨?_, ?_, ?_, fun g p hgp => _release_of_le g p hgp⟩
  · show (_release h o).refCount o = -1
    rw [_release_refCount, h0]; decide
  · exact ha2
  · rw [show release h (some o) = _release h o from rfl, hd2, hd]

/-- Witness for C10 on a concrete fresh heap. -/
theorem release_unretained_witness :
    heapW.fresh 0 ∧
    ((release heapW (some 0)).refCount 0 = -1 ∧
    (release heapW (some 0)).alive 0 = false ∧
    (release heapW (some 0)).destroys 0 = 1 ∧
    (∀ (g : Heap) (p : ObjId), g.refCount p - 1 ≤ 0 →
      (_release g p).alive p = false ∧ (_release g p).destroys p = g.destroys p + 1)) :=
  ⟨⟨rfl, rfl, rfl⟩, release_unretained heapW 0 ⟨rfl, rfl, rfl⟩⟩

/-- State of a program using `Retained<T>` smart pointers: the object heap
plus the `_ref` pointer of every handle (handles are identified by `Nat`, so
aliasing situations such as self-assignment are representable). -/
structure RState where
  heap : Heap
  handles : Nat → Option ObjId

theorem _release_refCount_ne (h : Heap) (p q : ObjId) (hne : q ≠ p) :
    (_release h p).refCount q = h.refCount q := by
  unfold _release; split <;> simp [hne]

/-- Embedding of `Retained::operator=(T *t)`:
`retain(t); release(_ref); _ref = t;` — retain the new object first, then
release the previous one. -/
def assignPtr (st : RState) (d : Nat) (t : Option ObjId) : RState :=
  { heap := release (retain st.heap t).1 (st.handles d),
    handles := fun x => if x = d then t else st.handles x }

/-- Embedding of `Retained::operator=(const Retained &r)`:
`return *this = r._ref;`. -/
def copyAssign (st : RState) (d s : Nat) : RState :=
  assignPtr st d (st.handles s)

/-- Embedding of `Retained(const Retained &r)`: `_ref(retain(r._ref))`,
creating the new handle `n`. -/
def copyCtor (st : RState) (n s : Nat) : RState :=
  { heap := (retain st.heap (st.handles s)).1,
    handles := fun x => if x = n then st.handles s else st.handles x }

/-- Embedding of `Retained(Retained &&r)`: `_ref(r._ref)` followed by
`r._ref = nullptr;`, creating the new handle `n`; no ref-count is touched. -/
def moveCtor (st : RState) (n s : Nat) : RState :=
  { heap := st.heap,
    handles := fun x =>
      if x = s then none else if x = n then st.handles s else st.handles x }

/-- Embedding of `Retained::operator=(Retained &&r)`:
`release(_ref); _ref = r._ref; r._ref = nullptr;` — the previously held
object is released unconditionally, before the pointer is taken over. -/
def moveAssign (st : RState) (d s : Nat) : RState :=
  { heap := release st.heap (st.handles d),
    handles := fun x =>
      if x = s then none else if x = d then st.handles s else st.handles x }

/-- Embedding of `~Retained()`: `release(_ref)`; the handle ceases to
exist. -/
def destroyHandle (st : RState) (d : Nat) : RState :=
  { heap := release st.heap (st.handles d),
    handles := fun x => if x = d then none else st.handles x }

/-- A concrete state for witnesses of C3: object 0 is alive with count 1 and
held by handle 1. -/
def stW3 : RState :=
  { heap := { refCount := fun _ => 1, alive := fun _ => true, destroys := fun _ => 0 },
    handles := fun x => if x = 1 then some 0 else none }

/-- A concrete state for witnesses of C4, identical in content to `stW3`. -/
def stW4 : RState :=
  { heap := { refCount := fun _ => 1, alive := fun _ => true, destroys := fun _ => 0 },
    handles := fun x => if x = 1 then some 0 else none }

/-- A concrete state refuting C4 as stated: handles 0 and 1 both hold
object 0, whose ref-count is 2 accordingly. -/
def stW4C : RState :=
  { heap := { refCount := fun _ => 2, alive := fun _ => true, destroys := fun _ => 0 },
    handles := fun x => if x ≤ 1 then some 0 else none }

/-- C3.  Copy-construction retains the newly held object, and assignment
retains it before releasing the previous one; consequently assigning a
handle `d` (which holds a live, retained object `O`) the same pointer `O` —
directly, or by copy-assignment from any handle `s` holding `O`, including
`s = d` — leaves `O` alive, leaves its ref-count unchanged, and leaves `d`
holding `O`. -/
theorem self_assign_noop (st : RState) (d s n : Nat) (O : ObjId)
    (hd : st.handles d = some O) (hs : st.handles s = some O)
    (halive : st.heap.alive O = true) (hcount : 1 ≤ st.heap.refCount O) :
    ((assignPtr st d (some O)).heap.refCount O = st.heap.refCount O ∧
     (assignPtr st d (some O)).heap.alive O = true ∧
     (assignPtr st d (some O)).handles d = some O) ∧
    copyAssign st d s = assignPtr st d (some O) ∧
    ((copyCtor st n s).heap.refCount O = st.heap.refCount O + 1 ∧
     (copyCtor st n s).handles n = some O) := by
  have hheap : (assignPtr st d (some O)).heap = _release (_retain st.heap O) O := by
    show release (_retain st.heap O) (st.handles d) = _release (_retain st.heap O) O
    rw [hd]; rfl
  have hrc : (_retain st.heap O).refCount O = st.heap.refCount O + 1 := by
    simp [_retain]
  have hpos : 1 < (_retain st.heap O).refCount O := by rw [hrc]; omega
  obtain ⟨ha2, _⟩ := _release_of_pos (_retain st.heap O) O hpos
  refine ⟨⟨?_, ?_, ?_⟩, ?_, ?_, ?_⟩
  · rw [hheap, _release_refCount, hrc]; ring
  · rw [hheap, ha2]; simpa [_retain] using halive
  · simp [assignPtr]
  · show assignPtr st d (st.handles s) = assignPtr st d (some O)
    rw [hs]
  · show (retain st.heap (st.handles s)).1.refCount O = st.heap.refCount O + 1
    rw [hs]; exact hrc
  · simp [copyCtor, hs]

/-- Witness for C3 on a concrete state: handle 1 holds object 0 (count 1)
and is self-assigned. -/
theorem self_assign_noop_witness :
    (stW3.handles 1 = some 0 ∧ stW3.handles 1 = some 0 ∧
     stW3.heap.alive 0 = true ∧ 1 ≤ stW3.heap.refCount 0) ∧
    (((assignPtr stW3 1 (some 0)).heap.refCount 0 = stW3.heap.refCount 0 ∧
      (assignPtr stW3 1 (some 0)).heap.alive 0 = true ∧
      (assignPtr stW3 1 (some 0)).handles 1 = some 0) ∧
     copyAssign stW3 1 1 = assignPtr stW3 1 (some 0) ∧
     ((copyCtor stW3 2 1).heap.refCount 0 = stW3.heap.refCount 0 + 1 ∧
      (copyCtor stW3 2 1).handles 2 = some 0)) :=
  ⟨⟨rfl, rfl, rfl, by decide⟩,
   self_assign_noop stW3 1 1 2 0 rfl rfl rfl (by decide)⟩

/-- Counterexample to C4 as stated: in a state where handle 0 and handle 1
both hold the same object 0 (ref-count 2), move-assigning handle 1 into
handle 0 does transfer the pointer and null handle 1, but it releases
the previous object of handle 0 — which is object 0 itself — so the
ref-count of object 0 drops from 2 to 1: it is not unchanged by the
transfer. -/
theorem move_assign_refcount_changed :
    stW4C.handles 0 = some 0 ∧ stW4C.handles 1 = some 0 ∧
    (moveAssign stW4C 0 1).handles 0 = some 0 ∧
    (moveAssign stW4C 0 1).handles 1 = none ∧
    stW4C.heap.refCount 0 = 2 ∧
    (moveAssign stW4C 0 1).heap.refCount 0 = 1 ∧
    ¬(moveAssign stW4C 0 1).heap.refCount 0 = stW4C.heap.refCount 0 := by
  refine ⟨rfl, rfl, rfl, rfl, rfl, ?_, ?_⟩ <;> decide

/-- C4 (amended).  Move-assigning a handle `s` holding `O` into a distinct
handle `d` makes `d` hold `O` and `s` hold null, and releases the object
previously held by `d` unconditionally; the ref-count of `O` is unchanged
provided `d` did not itself previously hold `O`.  Move-construction from `s`
touches no ref-count at all.  Destroying a handle releases its held object
unconditionally, a no-op when the handle is null.  Self-move-assignment
leaves the handle null. -/
theorem move_semantics (st : RState) (d s n : Nat) (O : ObjId)
    (hds : d ≠ s) (hns : n ≠ s) (hs : st.handles s = some O) :
    ((moveAssign st d s).handles d = some O ∧
     (moveAssign st d s).handles s = none ∧
     (moveAssign st d s).heap = release st.heap (st.handles d) ∧
     (¬st.handles d = some O →
       (moveAssign st d s).heap.refCount O = st.heap.refCount O)) ∧
    ((moveCtor st n s).heap = st.heap ∧
     (moveCtor st n s).handles n = some O ∧
     (moveCtor st n s).handles s = none) ∧
    ((destroyHandle st d).heap = release st.heap (st.handles d) ∧
     (st.handles d = none → (destroyHandle st d).heap = st.heap)) ∧
    (moveAssign st s s).handles s = none := by
  refine ⟨⟨?_, ?_, rfl, ?_⟩, ⟨rfl, ?_, ?_⟩, ⟨rfl, ?_⟩, ?_⟩
  · simp [moveAssign, hds, hs]
  · simp [moveAssign]
  · intro hne
    show (release st.heap (st.handles d)).refCount O = st.heap.refCount O
    cases hD : st.handles d with
    | none => rfl
    | some P =>
      have hPO : O ≠ P := by
        intro hOP; exact hne (by rw [hD, hOP])
      exact _release_refCount_ne st.heap P O hPO
  · simp [moveCtor, hns, hs]
  · simp [moveCtor]
  · intro hnone
    show release st.heap (st.handles d) = st.heap
    rw [hnone]; rfl
  · simp [moveAssign]

/-- Witness for the amended C4 on a concrete state: handle 1 holds object 0,
handle 0 is null, handle 2 is the move-construction target. -/
theorem move_semantics_witness :
    ((0 : Nat) ≠ 1 ∧ (2 : Nat) ≠ 1 ∧ stW4.handles 1 = some 0) ∧
    (((moveAssign stW4 0 1).handles 0 = some 0 ∧
      (moveAssign stW4 0 1).handles 1 = none ∧
      (moveAssign stW4 0 1).heap = release stW4.heap (stW4.handles 0) ∧
      (¬stW4.handles 0 = some 0 →
        (moveAssign stW4 0 1).heap.refCount 0 = stW4.heap.refCount 0)) ∧
     ((moveCtor stW4 2 1).heap = stW4.heap ∧
      (moveCtor stW4 2 1).handles 2 = some 0 ∧
      (moveCtor stW4 2 1).handles 1 = none) ∧
     ((destroyHandle stW4 0).heap = release stW4.heap (stW4.handles 0) ∧
      (stW4.handles 0 = none → (destroyHandle stW4 0).heap = stW4.heap)) ∧
     (moveAssign stW4 1 1).handles 1 = none) :=
  ⟨⟨by decide, by decide, rfl⟩,
   move_semantics stW4 0 1 2 0 (by decide) (by decide) rfl⟩

/-- Operations on one `RefCounted` object.  The counter is a
`std::atomic<int32_t>` and `_release` performs a single atomic
decrement-and-compare, so every concurrent execution of retains and
releases is equivalent to some interleaving, that is, to some sequence of
these indivisible steps. -/
inductive RCOp
  | ret
  | rel
deriving DecidableEq

/-- One atomic step: `_retain` or `_release` on object `o`. -/
def rcStep (h : Heap) (o : ObjId) : RCOp → Heap
  | RCOp.ret => _retain h o
  | RCOp.rel => _release h o

/-- Execution of a sequence of atomic steps. -/
def rcRun (h : Heap) (o : ObjId) : List RCOp → Heap
  | [] => h
  | op :: t => rcRun (rcStep h o op) o t

theorem rcStep_destroys_le (h : Heap) (o : ObjId) (op : RCOp) :
    (rcStep h o op).destroys o ≤ h.destroys o + 1 := by
  cases op with
  | ret => simp [rcStep, _retain]
  | rel =>
    show (_release h o).destroys o ≤ h.destroys o + 1
    unfold _release; split <;> simp

theorem rcStep_alive_destroys (h : Heap) (o : ObjId) (op : RCOp)
    (hd : h.destroys o = 0) (ha : (rcStep h o op).alive o = true) :
    (rcStep h o op).destroys o = 0 := by
  cases op with
  | ret => simpa [rcStep, _retain] using hd
  | rel =>
    show (_release h o).destroys o = 0
    revert ha
    show (_release h o).alive o = true → _
    unfold _release
    split
    · intro hcon; simp at hcon
    · intro _; exact hd

/-- C5.  In the interleaving model of the atomic counter, for every object
and every interleaving of retains and releases that is valid use of the
primitive (the object is alive after every proper prefix, i.e. no step acts
on an already-destroyed object), at most one release can observe that the
decremented count reached ≤ 0, so the object is never destroyed twice; and
if the object is still alive at the end, it was never destroyed at all. -/
theorem no_double_destroy (t : List RCOp) (o : ObjId) :
    ∀ h : Heap, h.alive o = true → h.destroys o = 0 →
    (∀ k, k < t.length → (rcRun h o (List.take k t)).alive o = true) →
    (rcRun h o t).destroys o ≤ 1 ∧
    ((rcRun h o t).alive o = true → (rcRun h o t).destroys o = 0) := by
  induction t with
  | nil =>
    intro h ha hd _
    exact ⟨by simp [rcRun, hd], fun _ => by simp [rcRun, hd]⟩
  | cons op rest ih =>
    intro h ha hd hpre
    show (rcRun (rcStep h o op) o rest).destroys o ≤ 1 ∧ _
    by_cases hstep : (rcStep h o op).alive o = true
    · have hd1 : (rcStep h o op).destroys o = 0 := rcStep_alive_destroys h o op hd hstep
      refine ih (rcStep h o op) hstep hd1 ?_
      intro k hk
      have hk1 : k + 1 < (op :: rest).length := by simpa using Nat.succ_lt_succ hk
      have := hpre (k + 1) hk1
      simpa [rcRun] using this
    · cases rest with
      | nil =>
        constructor
        · have := rcStep_destroys_le h o op
          show (rcStep h o op).destroys o ≤ 1
          omega
        · intro hal
          exact absurd hal hstep
      | cons b bs =>
        have h1 := hpre 1 (by simp)
        simp only [List.take, rcRun] at h1
        exact absurd h1 hstep

/-- Witness for C5 on a concrete valid interleaving: two retains then two
releases of a fresh object; every proper prefix leaves the object alive,
and exactly the final release destroys it. -/
theorem no_double_destroy_witness :
    (heapW.alive 0 = true ∧ heapW.destroys 0 = 0 ∧
     (∀ k, k < ([RCOp.ret, RCOp.ret, RCOp.rel, RCOp.rel] : List RCOp).length →
       (rcRun heapW 0 (List.take k [RCOp.ret, RCOp.ret, RCOp.rel, RCOp.rel])).alive 0 = true)) ∧
    ((rcRun heapW 0 [RCOp.ret, RCOp.ret, RCOp.rel, RCOp.rel]).destroys 0 ≤ 1 ∧
     ((rcRun heapW 0 [RCOp.ret, RCOp.ret, RCOp.rel, RCOp.rel]).alive 0 = true →
       (rcRun heapW 0 [RCOp.ret, RCOp.ret, RCOp.rel, RCOp.rel]).destroys 0 = 0)) :=
  ⟨⟨rfl, rfl, by decide⟩,
   no_double_destroy [RCOp.ret, RCOp.ret, RCOp.rel, RCOp.rel] 0 heapW rfl rfl (by decide)⟩

/-- Construction and destruction events of `InstanceCounted` objects:
`defaultCtor` is the user-written `InstanceCounted()`; `copyCtor` is the
implicitly generated copy constructor, whose compiler-generated body does
not contain the increment of the default constructor; `dtor` is
`~InstanceCounted()`, which runs on the destruction of every instance,
copies included. -/
inductive ICEvent
  | defaultCtor
  | copyCtor
  | dtor
deriving DecidableEq

/-- Effect of one event on `gObjectCount` as the code implements it:
`InstanceCounted() {++gObjectCount;}`, the implicit copy constructor (no
increment), and `~InstanceCounted() {--gObjectCount;}`. -/
def icStep (c : Int) : ICEvent → Int
  | ICEvent.defaultCtor => c + 1
  | ICEvent.copyCtor => c
  | ICEvent.dtor => c - 1

/-- Value of `gObjectCount` after a sequence of construction and
destruction events, starting from `c`. -/
def gObjectCount (c : Int) : List ICEvent → Int
  | [] => c
  | e :: t => gObjectCount (icStep c e) t

/-- Number of live instances created minus destroyed by a sequence of
events: every construction (default or copy) creates an instance, every
destruction removes one. -/
def liveInstances : List ICEvent → Int
  | [] => 0
  | ICEvent.dtor :: t => liveInstances t - 1
  | _ :: t => liveInstances t + 1

/-- C6 fails on the code: the sequence default-construct A, copy-construct
B from A, destroy B, destroy A is a balanced sequence of constructions and
destructions (including one copy) that leaves zero live instances, yet
`gObjectCount` ends at -1 instead of its starting value 0, because the
implicitly generated copy constructor performs no increment while the
destructor of the copy still decrements.  This contradicts the documented
purpose of the class (tracking the total instance count for leak
detection), so it is a defect of the code rather than of the claim. -/
theorem instance_counter_copy_bug :
    liveInstances [ICEvent.defaultCtor, ICEvent.copyCtor, ICEvent.dtor, ICEvent.dtor] = 0 ∧
    gObjectCount 0 [ICEvent.defaultCtor, ICEvent.copyCtor, ICEvent.dtor, ICEvent.dtor] = -1 ∧
    ¬gObjectCount 0 [ICEvent.defaultCtor, ICEvent.copyCtor, ICEvent.dtor, ICEvent.dtor] = 0 := by
  refine ⟨by decide, by decide, by decide⟩

namespace websocket

/-- Host-facing plain-data address struct `C4Address`, with the fields the
spec lists for the address value exchange: scheme/TLS flag, hostname, port
and path. -/
structure C4Address where
  scheme : String
  hostname : String
  port : Nat
  path : String
deriving DecidableEq

/-- Internal value-typed address `websocket::Address`, carrying the same
components. -/
structure Address where
  scheme : String
  hostname : String
  port : Nat
  path : String
deriving DecidableEq

/-- Modelled from the spec: the body of `addressFrom(const C4Address&)` is
not under src/ (only its declaration in c4Socket+Internal.hh).  Per the
spec, host-struct to internal value drops nothing; all fields map 1:1. -/
def addressFrom (addr : C4Address) : Address :=
  { scheme := addr.scheme, hostname := addr.hostname,
    port := addr.port, path := addr.path }

/-- Modelled from the spec: the body of `c4AddressFrom(const Address&)` is
not under src/ (only its declaration).  Internal value to host-struct is
likewise a 1:1 field mapping. -/
def c4AddressFrom (address : Address) : C4Address :=
  { scheme := address.scheme, hostname := address.hostname,
    port := address.port, path := address.path }

/-- Modelled from the spec: the path component synthesized from a database
name (the peer-database conversion appends the database name as the
path). -/
def pathOfDbName (name : String) : String := "/" ++ name

/-- Modelled from the spec: the body of
`addressFrom(const C4Address&, C4String remoteDatabaseName)` is not under
src/.  The override replaces only the path-derived database name; every
other field is derived from the host struct as in the plain conversion. -/
def addressFromDbName (addr : C4Address) (remoteDatabaseName : String) : Address :=
  { addressFrom addr with path := pathOfDbName remoteDatabaseName }

/-- C7.  Converting a host-facing address to the internal value and back
reproduces its scheme/TLS flag, host, port and path; the overload taking a
remote-database-name override substitutes only the path component, leaving
the other fields as derived from the host struct. -/
theorem address_round_trip (A : C4Address) (name : String) :
    c4AddressFrom (addressFrom A) = A ∧
    (addressFromDbName A name).scheme = (addressFrom A).scheme ∧
    (addressFromDbName A name).hostname = (addressFrom A).hostname ∧
    (addressFromDbName A name).port = (addressFrom A).port ∧
    (addressFromDbName A name).path = pathOfDbName name :=
  ⟨rfl, rfl, rfl, rfl, rfl⟩

/-- Host socket factory callback table `C4SocketFactory`: the four
callback slots (open, send/write, complete-receive, close), each possibly
null; callback identities are modelled as numbers. -/
structure C4SocketFactory where
  openFn : Option Nat
  writeFn : Option Nat
  completedReceiveFn : Option Nat
  closeFn : Option Nat
deriving DecidableEq

/-- The configuration error reported for an incomplete factory table. -/
inductive ConfigError
  | invalidSocketFactory
deriving DecidableEq

/-- Registry state of `C4Provider`: the active factory table
(`sRegisteredFactory`), `none` before any registration; the built-in
default is installed lazily on first access. -/
abbrev RegistryState := Option C4SocketFactory

/-- Modelled from the spec: `C4DefaultSocketFactory`, a complete built-in
table registered lazily when the first replication starts. -/
def C4DefaultSocketFactory : C4SocketFactory :=
  { openFn := some 0, writeFn := some 1,
    completedReceiveFn := some 2, closeFn := some 3 }

/-- Modelled from the spec: `C4Provider::validateFactory` fails with a
configuration error exactly when one of the four mandatory callback slots
is absent. -/
def validateFactory (f : C4SocketFactory) : Bool :=
  f.openFn.isSome && f.writeFn.isSome && f.completedReceiveFn.isSome && f.closeFn.isSome

/-- Modelled from the spec: `C4Provider::registerFactory` validates the
table; on success it atomically replaces the process-wide active table, on
failure it reports a configuration error. -/
def registerFactory (f : C4SocketFactory) : Except ConfigError RegistryState :=
  if validateFactory f then Except.ok (some f)
  else Except.error ConfigError.invalidSocketFactory

/-- Registry state after a registration attempt: on failure the previous
state is kept unchanged. -/
def registryAfter (st : RegistryState) (f : C4SocketFactory) : RegistryState :=
  match registerFactory f with
  | Except.ok st2 => st2
  | Except.error _ => st

/-- Modelled from the spec: `C4Provider::registeredFactory` returns the
active table, lazily installing the built-in default on first access if no
host registration has occurred yet. -/
def registeredFactory (st : RegistryState) : C4SocketFactory × RegistryState :=
  match st with
  | some f => (f, some f)
  | none => (C4DefaultSocketFactory, some C4DefaultSocketFactory)

/-- C8.  Registering a table with any of the four mandatory callback slots
absent fails with a configuration error and leaves the registry state — and
hence the table subsequent accesses see (previously registered, or the lazy
default) — unchanged; registering a table with all four slots populated
replaces the active table. -/
theorem register_factory_validates (st : RegistryState) (f : C4SocketFactory)
    (hmiss : f.openFn = none ∨ f.writeFn = none ∨
      f.completedReceiveFn = none ∨ f.closeFn = none) :
    registerFactory f = Except.error ConfigError.invalidSocketFactory ∧
    registryAfter st f = st ∧
    (registeredFactory (registryAfter st f)).1 = (registeredFactory st).1 ∧
    (∀ g : C4SocketFactory, validateFactory g = true →
      registerFactory g = Except.ok (some g)) := by
  have hval : validateFactory f = false := by
    rcases hmiss with hm | hm | hm | hm <;> simp [validateFactory, hm]
  have herr : registerFactory f = Except.error ConfigError.invalidSocketFactory := by
    rw [registerFactory, hval]; rfl
  have hafter : registryAfter st f = st := by
    rw [registryAfter, herr]
  refine ⟨herr, hafter, by rw [hafter], ?_⟩
  intro g hg
  rw [registerFactory, hg]; rfl

/-- A concrete table for the C8 witness, missing only its open callback. -/
def factoryMissingOpen : C4SocketFactory :=
  { openFn := none, writeFn := some 1,
    completedReceiveFn := some 2, closeFn := some 3 }

/-- Witness for C8: a table missing only its open callback is rejected and
the registry (holding the default table) is unchanged. -/
theorem register_factory_validates_witness :
    (factoryMissingOpen.openFn = none ∨ factoryMissingOpen.writeFn = none ∨
      factoryMissingOpen.completedReceiveFn = none ∨
      factoryMissingOpen.closeFn = none) ∧
    (registerFactory factoryMissingOpen
        = Except.error ConfigError.invalidSocketFactory ∧
     registryAfter (some C4DefaultSocketFactory) factoryMissingOpen
        = some C4DefaultSocketFactory ∧
     (registeredFactory
        (registryAfter (some C4DefaultSocketFactory) factoryMissingOpen)).1
        = (registeredFactory (some C4DefaultSocketFactory)).1 ∧
     (∀ g : C4SocketFactory, validateFactory g = true →
        registerFactory g = Except.ok (some g))) :=
  ⟨Or.inl rfl,
   register_factory_validates (some C4DefaultSocketFactory) factoryMissingOpen
     (Or.inl rfl)⟩

/-- State of the handle-to-object bindings of the provider: for each host
`C4Socket` handle the bound internal WebSocket object id, if any, plus a
fresh-id source for newly created internal objects. -/
structure SocketRegistry where
  bindings : Nat → Option Nat
  nextId : Nat

/-- Modelled from the spec: the body of the host-facing
`C4Provider::createWebSocket(factory, nativeHandle, address, options)` is
not under src/.  It creates a new internal WebSocket object, registers the
handle-to-object binding, and returns the new object. -/
def createWebSocket (st : SocketRegistry) (handle : Nat) : SocketRegistry × Nat :=
  ({ bindings := fun x => if x = handle then some st.nextId else st.bindings x,
     nextId := st.nextId + 1 },
   st.nextId)

/-- Modelled from the spec: the body of `WebSocketFrom(C4Socket*)` is not
under src/.  It looks up the internal object currently bound to the handle;
`none` when no binding exists. -/
def WebSocketFrom (st : SocketRegistry) (handle : Nat) : Option Nat :=
  st.bindings handle

/-- Modelled from the spec: the body of `C4Provider::closeSocket` is not
under src/.  It removes the handle-to-object binding of the given internal
object. -/
def closeSocket (st : SocketRegistry) (w : Nat) : SocketRegistry :=
  { st with
    bindings := fun x => if st.bindings x = some w then none else st.bindings x }

/-- C9.  Immediately after the host-facing `createWebSocket` binds a handle
to the internal object it created, looking the handle up returns that
object; after the corresponding `closeSocket` the lookup returns not-found
(`none`), never a stale object; and a handle is bound to at most one
internal object at a time. -/
theorem binding_lifecycle (st : SocketRegistry) (handle : Nat) :
    WebSocketFrom (createWebSocket st handle).1 handle
      = some (createWebSocket st handle).2 ∧
    WebSocketFrom
      (closeSocket (createWebSocket st handle).1 (createWebSocket st handle).2)
      handle = none ∧
    (∀ (st2 : SocketRegistry) (h2 w1 w2 : Nat),
      WebSocketFrom st2 h2 = some w1 → WebSocketFrom st2 h2 = some w2 → w1 = w2) := by
  refine ⟨?_, ?_, ?_⟩
  · simp [WebSocketFrom, createWebSocket]
  · simp [WebSocketFrom, createWebSocket, closeSocket]
  · intro st2 h2 w1 w2 h1 h2eq
    rw [h1] at h2eq
    exact Option.some.inj h2eq

/-- Witness for C9 on a concrete empty registry and handle 7. -/
theorem binding_lifecycle_witness :
    WebSocketFrom (createWebSocket ⟨fun _ => none, 5⟩ 7).1 7
      = some (createWebSocket ⟨fun _ => none, 5⟩ 7).2 ∧
    WebSocketFrom
      (closeSocket (createWebSocket ⟨fun _ => none, 5⟩ 7).1
        (createWebSocket ⟨fun _ => none, 5⟩ 7).2) 7 = none ∧
    (∀ (st2 : SocketRegistry) (h2 w1 w2 : Nat),
      WebSocketFrom st2 h2 = some w1 → WebSocketFrom st2 h2 = some w2 → w1 = w2) :=
  binding_lifecycle ⟨fun _ => none, 5⟩ 7

end websocket

end litecore
